import Mathlib

/-!
Verification of the Sehat.ai backend core (`src/backend/main.py`).

This file gives a shallow embedding of the request-time logic of the
backend — the disease lookup, the symptom checker and the vaccination
scheduler — and proves the specification claims about it.  Every
definition is translated from `src/backend/main.py`; the JSON catalogs
are modelled as in-memory lists of records, and Python string
primitives (`lower`, `strip`, `split`, `in`, `replace`, `int`,
`strptime`) are modelled on ASCII strings, which is what the catalogs
contain.
-/

deriving instance DecidableEq for Except

namespace Sehat

open scoped List

/-! ### Python string primitives

All of them are written by structural recursion on the character list
of the string, so that they evaluate on concrete inputs. -/

/-- Python `str.lower()` on ASCII data. -/
def pyLower (s : String) : String := String.mk (s.toList.map Char.toLower)

/-- Python whitespace, as stripped by `str.strip()` (ASCII range). -/
def isPySpace (c : Char) : Bool :=
  c == ' ' || c == '\t' || c == '\n' || c == '\r' || c == '\x0b' || c == '\x0c'

/-- Python `str.strip()` on ASCII data: drop surrounding whitespace. -/
def pyStrip (s : String) : String :=
  String.mk (((s.toList.dropWhile isPySpace).reverse.dropWhile isPySpace).reverse)

/-- Python `s.split(sep)` for a one-character separator: always returns
at least one piece, so `"".split(",") = [""]`. -/
def splitChar (sep : Char) : List Char → List (List Char)
  | [] => [[]]
  | c :: t =>
      match splitChar sep t with
      | [] => [[c]]
      | h :: r => if c == sep then [] :: h :: r else (c :: h) :: r

/-- Python `s.split(sep)` on strings, one-character separator. -/
def pySplit (sep : Char) (s : String) : List String :=
  (splitChar sep s.toList).map String.mk

/-- Lemma: `splitChar` never returns the empty list (Python `split` always
yields at least one piece). -/
theorem splitChar_ne_nil (sep : Char) (l : List Char) : splitChar sep l ≠ [] := by
  cases l with
  | nil => simp [splitChar]
  | cons c t =>
      unfold splitChar
      cases splitChar sep t with
      | nil => simp
      | cons h r =>
          by_cases hc : (c == sep) = true <;> simp [hc]

/-- Auxiliary for Python `s.replace(pat, "")`: delete every
non-overlapping occurrence of `pat`, scanning left to right.  The fuel
is the length of the scanned list, which suffices because every step
consumes at least one character; the guard on `pat.isEmpty` keeps the
function total (the caller only uses the nonempty pattern `"months"`). -/
def replaceDel (pat : List Char) : Nat → List Char → List Char
  | 0, l => l
  | _ + 1, [] => []
  | fuel + 1, c :: t =>
      if pat.isPrefixOf (c :: t) && !pat.isEmpty then
        replaceDel pat fuel (t.drop (pat.length - 1))
      else c :: replaceDel pat fuel t

/-- Python `s.replace(pat, "")`. -/
def pyRemove (pat : String) (s : String) : String :=
  String.mk (replaceDel pat.toList s.toList.length s.toList)

/-- Auxiliary for the Python substring test: is `needle` a contiguous
sublist of `hay`? -/
def infixAt : List Char → List Char → Bool
  | needle, [] => needle.isEmpty
  | needle, c :: t => needle.isPrefixOf (c :: t) || infixAt needle t

/-- Python `needle in hay` substring containment. -/
def strIn (needle hay : String) : Bool := infixAt needle.toList hay.toList

/-- The empty string is a substring of everything, as in Python
(`"" in s` is `True`). -/
theorem strIn_empty (hay : String) : strIn "" hay = true := by
  unfold strIn
  show infixAt [] hay.toList = true
  cases hay.toList with
  | nil => rfl
  | cons c t => rfl

/-! ### Disease catalog and the disease-lookup endpoint
(`get_disease_info`, `main.py` lines 74-94) -/

/-- A record of `diseases.json` as consumed by `main.py`: a `"disease"`
name and its `"common_symptoms"` list. -/
structure DiseaseRec where
  disease : String
  common_symptoms : List String
deriving DecidableEq, Repr

/-- Responses of the `/disease/{name}` endpoint. -/
inductive DiseaseResp where
  /-- `{"error": t("unknown_query", lang)}` — dataset failed to load. -/
  | noData : DiseaseResp
  /-- `{"message": ..., "results": matches}`. -/
  | found : List DiseaseRec → DiseaseResp
  /-- `{"error": ..., "did_you_mean": suggestions}`. -/
  | notFound : List String → DiseaseResp
deriving DecidableEq, Repr

/-- Embedding of `get_disease_info` (`main.py` 74-94).  `none` models the Python
`IndexError` that `query[0]` would raise on an empty `query`; every
other outcome is `some` of the JSON response. -/
def get_disease_info (name : String) (data : List DiseaseRec) :
    Option DiseaseResp :=
  if data.isEmpty then some .noData
  else
    if !(data.filter fun r =>
        strIn (pyStrip (pyLower name)) (pyStrip (pyLower r.disease))).isEmpty then
      some (.found (data.filter fun r =>
        strIn (pyStrip (pyLower name)) (pyStrip (pyLower r.disease))))
    else
      match (pyStrip (pyLower name)).toList with
      | [] => none
      | c :: _ =>
          some (.notFound
            (((data.filter fun r =>
                strIn (String.mk [c]) (pyLower r.disease)).map
              (fun r => r.disease)).take 5))

/-! ### The symptom checker (`symptom_check`, `main.py` lines 100-122) -/

/-- Python `[s.strip().lower() for s in symptoms.split(",")]` (`main.py` 105).
Note Python `"".split(",") = [""]`, and `String.splitOn` agrees. -/
def userSymptoms (symptoms : String) : List String :=
  (pySplit ',' symptoms).map fun s => pyLower (pyStrip s)

/-- Python `[s.strip().lower() for s in record.get("common_symptoms", [])]`
(`main.py` 109). -/
def normSyms (r : DiseaseRec) : List String :=
  r.common_symptoms.map fun s => pyLower (pyStrip s)

/-- Python `len(set(user_symptoms) & set(disease_symptoms))` (`main.py` 110):
the number of distinct user symptoms that also occur among the
disease's symptoms. -/
def interScore (user ds : List String) : Nat :=
  (user.dedup.filter fun s => decide (s ∈ ds)).length

/-- One element of the `matches` list built at `main.py` 112-116. -/
structure MatchEntry where
  disease : String
  match_score : Nat
  symptoms : List String
deriving DecidableEq, Repr

/-- The `matches` entry built from a catalog record (`main.py` 112-116). -/
def mkEntry (user : List String) (r : DiseaseRec) : MatchEntry :=
  ⟨r.disease, interScore user (normSyms r), r.common_symptoms⟩

/-- The `matches` list before sorting (`main.py` 108-116): one entry per
catalog record whose score is positive, in catalog order. -/
def rawMatches (user : List String) (data : List DiseaseRec) :
    List MatchEntry :=
  data.filterMap fun r =>
    if 0 < interScore user (normSyms r) then some (mkEntry user r) else none

/-- The ordering used by `sorted(..., key=lambda x: x["match_score"],
reverse=True)`: `a` may precede `b` iff the score of `a` is at least
the score of `b`. -/
def scoreGE (a b : MatchEntry) : Prop := b.match_score <= a.match_score

instance : DecidableRel scoreGE := fun _ _ => Nat.decLe _ _

instance : IsTotal MatchEntry scoreGE :=
  ⟨fun a b => Nat.le_total b.match_score a.match_score⟩

instance : IsTrans MatchEntry scoreGE :=
  ⟨fun _ _ _ hab hbc => Nat.le_trans hbc hab⟩

/-- Python's `sorted` is a stable sort; with the non-strict descending
comparison `scoreGE`, `List.insertionSort` is exactly that stable sort
(stability is proved below from `List.sublist_insertionSort`). -/
def sortDesc (l : List MatchEntry) : List MatchEntry := l.insertionSort scoreGE

/-- The `"possible_diseases"` field: either the match list, or — via the
Python `or` at `main.py` 121 — the `t("unknown_query", lang)` sentinel
string substituted when the list is empty. -/
inductive PossibleDiseases where
  | list : List MatchEntry → PossibleDiseases
  | sentinel : String → PossibleDiseases
deriving DecidableEq, Repr

/-- The JSON body returned by `/symptom-check` on the happy path. -/
structure SymptomResp where
  input_symptoms : List String
  possible_diseases : PossibleDiseases
deriving DecidableEq, Repr

/-- Embedding of `symptom_check` (`main.py` 100-122).  `t("unknown_query", lang)` is
modelled by its translation key. -/
def symptom_check (symptoms : String) (data : List DiseaseRec) :
    Except String SymptomResp :=
  if data.isEmpty then .error "unknown_query"
  else
    .ok ⟨userSymptoms symptoms,
      if ((sortDesc (rawMatches (userSymptoms symptoms) data)).take 5).isEmpty then
        .sentinel "unknown_query"
      else .list ((sortDesc (rawMatches (userSymptoms symptoms) data)).take 5)⟩

/-! ### Python `int()` (`main.py` 193) -/

/-- Numeric value of an ASCII digit. -/
def digitVal (c : Char) : Nat := c.toNat - 48

/-- Continue parsing the digit part of a Python integer literal:
digits with single underscores allowed only between digits. -/
def pyDigitsAux : Nat → List Char → Option Nat
  | acc, [] => some acc
  | _, ['_'] => none
  | acc, '_' :: c :: rest =>
      if c.isDigit then pyDigitsAux (acc * 10 + digitVal c) rest else none
  | acc, c :: rest =>
      if c.isDigit then pyDigitsAux (acc * 10 + digitVal c) rest else none

/-- The digit part of a Python integer literal: nonempty, starts with a
digit. -/
def pyIntDigits : List Char → Option Nat
  | [] => none
  | c :: rest => if c.isDigit then pyDigitsAux (digitVal c) rest else none

/-- Python `int(s)` on an already-stripped string: optional sign, then
digits (Python 3 also allows single underscores between digits). -/
def pyParseInt (s : String) : Option Int :=
  match s.toList with
  | '+' :: rest => (pyIntDigits rest).map fun n => (n : Int)
  | '-' :: rest => (pyIntDigits rest).map fun n => -(n : Int)
  | l => (pyIntDigits l).map fun n => (n : Int)

/-! ### Dates (`datetime.strptime(dob, "%Y-%m-%d")`, `main.py` 159-165) -/

/-- Gregorian leap year. -/
def isLeap (y : Nat) : Bool := (y % 4 == 0 && y % 100 != 0) || y % 400 == 0

/-- Length of month `m` of year `y`. -/
def daysInMonth (y m : Nat) : Nat :=
  if m == 2 then (if isLeap y then 29 else 28)
  else if m == 4 || m == 6 || m == 9 || m == 11 then 30
  else 31

/-- Days in year `y` before the first of month `m`. -/
def daysBeforeMonth (y m : Nat) : Nat :=
  ((List.range' 1 (m - 1)).map (daysInMonth y)).sum

/-- Days before January 1 of year `y` in the proleptic Gregorian
calendar (as in Python `date.toordinal`, where 0001-01-01 is day 1). -/
def daysBeforeYear (y : Nat) : Nat :=
  365 * (y - 1) + (y - 1) / 4 - (y - 1) / 100 + (y - 1) / 400

/-- Python `date(y, m, d).toordinal()`. -/
def toOrdinal (y m d : Nat) : Nat := daysBeforeYear y + daysBeforeMonth y m + d

/-- All characters are ASCII digits. -/
def allDigits (l : List Char) : Bool := l.all Char.isDigit

/-- Value of a digit string. -/
def natOfDigits (l : List Char) : Nat :=
  l.foldl (fun acc c => acc * 10 + digitVal c) 0

/-- Python `datetime.strptime(s, "%Y-%m-%d").date()`: `%Y` is exactly
four digits, `%m` and `%d` are one or two digits, nothing is left over,
and the `date` constructor then requires `1 ≤ year`, `1 ≤ month ≤ 12`
and `1 ≤ day ≤ daysInMonth`.  `none` models the `ValueError` caught at
`main.py` 160. -/
def parseDate (s : String) : Option (Nat × Nat × Nat) :=
  match splitChar '-' s.toList with
  | [ys, ms, ds] =>
      if ys.length == 4 && allDigits ys
          && (ms.length == 1 || ms.length == 2) && allDigits ms
          && (ds.length == 1 || ds.length == 2) && allDigits ds then
        let y := natOfDigits ys
        let m := natOfDigits ms
        let d := natOfDigits ds
        if 1 ≤ y ∧ 1 ≤ m ∧ m ≤ 12 ∧ 1 ≤ d ∧ d ≤ daysInMonth y m then
          some (y, m, d)
        else none
      else none
  | _ => none

/-- Python `str(n)` zero-padded to two digits. -/
def pad2 (n : Nat) : String := if n < 10 then "0" ++ toString n else toString n

/-- Python `str(n)` zero-padded to four digits. -/
def pad4 (n : Nat) : String :=
  if n < 10 then "000" ++ toString n
  else if n < 100 then "00" ++ toString n
  else if n < 1000 then "0" ++ toString n
  else toString n

/-- Python `str(date(y, m, d))`, the ISO form echoed back at
`main.py` 200. -/
def fmtDate (y m d : Nat) : String := pad4 y ++ "-" ++ pad2 m ++ "-" ++ pad2 d

/-! ### Vaccination endpoints (`main.py` 128-204) -/

/-- One entry of `vaccination_schedule.json`: the fields `main.py`
reads (`"age"`) plus the vaccine name carried through to the output. -/
structure VaccineEntry where
  vaccine : String
  age : String
deriving DecidableEq, Repr

/-- Embedding of `get_vaccines_by_age` (`main.py` 134-151): bidirectional
case-insensitive substring containment of the query against each raw
age label, over `NIS_vaccines` followed by `optional_private_vaccines`.
The Python error message interpolates the age into
`"No vaccines found for age ..."`. -/
def get_vaccines_by_age (dataLoaded : Bool) (age : String)
    (nis opt : List VaccineEntry) :
    Except String (String × List VaccineEntry) :=
  if !dataLoaded then .error "unknown_query"
  else
    if !((nis ++ opt).filter fun v =>
        strIn (pyStrip (pyLower age)) (pyLower v.age)
          || strIn (pyLower v.age) (pyStrip (pyLower age))).isEmpty then
      .ok (age, (nis ++ opt).filter fun v =>
        strIn (pyStrip (pyLower age)) (pyLower v.age)
          || strIn (pyLower v.age) (pyStrip (pyLower age)))
    else .error "No vaccines found for age"

/-- The if/elif chain at `main.py` 174-189 deciding whether an entry
whose lower-cased label is `ageStr` is due at `m` months. -/
def duePred (m : Int) (ageStr : String) : Bool :=
  if strIn "birth" ageStr && m == 0 then true
  else if strIn "6 weeks" ageStr && decide (1 ≤ m ∧ m ≤ 2) then true
  else if strIn "10 weeks" ageStr && decide (2 ≤ m ∧ m ≤ 3) then true
  else if strIn "14 weeks" ageStr && decide (3 ≤ m ∧ m ≤ 4) then true
  else if strIn "9-12 months" ageStr && decide (9 ≤ m ∧ m ≤ 12) then true
  else if strIn "16-24 months" ageStr && decide (16 ≤ m ∧ m ≤ 24) then true
  else if strIn "5-6 years" ageStr && decide (60 ≤ m ∧ m ≤ 72) then true
  else if strIn "10 years" ageStr && decide (120 ≤ m ∧ m ≤ 132) then true
  else false

/-- Python `age_str.split("-")[0]` (`splitChar` never returns `[]`, so the
default is never used — as in Python, where `split` always yields at
least one piece). -/
def firstDashPart (s : String) : String := (pySplit '-' s).headD s

/-- Python `int(age_str.split("-")[0].replace("months", "").strip())`
(`main.py` 193), with `none` for the exception swallowed at 196-197. -/
def parseMin (ageStr : String) : Option Int :=
  pyParseInt (pyStrip (pyRemove "months" (firstDashPart ageStr)))

/-- The `upcoming_vaccine` test at `main.py` 191-197 for one entry:
label contains `"months"` and its parsed lower bound exceeds the age.
(Entries are nonempty dicts, hence truthy, so `if not upcoming_vaccine`
is exactly "not yet found" — modelled by `List.find?` below.) -/
def upcomingPred (m : Int) (v : VaccineEntry) : Bool :=
  let a := pyLower v.age
  strIn "months" a &&
    match parseMin a with
    | some k => decide (m < k)
    | none => false

/-- The JSON body returned by `/vaccination/due` on the happy path. -/
structure DueResp where
  dob : String
  age_months : Int
  due_vaccines : List VaccineEntry
  upcoming_vaccine : Option VaccineEntry
deriving DecidableEq, Repr

/-- Embedding of `get_due_vaccines` (`main.py` 153-204).  `todayOrd` is
`datetime.today().date().toordinal()`; `nis` and `opt` are the
`NIS_vaccines` and `optional_private_vaccines` sections; `dataLoaded`
is the truthiness of `vaccination_data` (line 155).  Python `//` on a
possibly negative `age_days` is floor division, `Int.fdiv`. -/
def get_due_vaccines (dataLoaded : Bool) (dob : String) (todayOrd : Int)
    (nis opt : List VaccineEntry) : Except String DueResp :=
  if !dataLoaded then .error "unknown_query"
  else
    match parseDate dob with
    | none => .error "Invalid date format. Use YYYY-MM-DD"
    | some (y, m, d) =>
        .ok ⟨fmtDate y m d, (todayOrd - (toOrdinal y m d : Int)).fdiv 30,
             (nis ++ opt).filter
               (fun v => duePred ((todayOrd - (toOrdinal y m d : Int)).fdiv 30)
                 (pyLower v.age)),
             (nis ++ opt).find?
               (upcomingPred ((todayOrd - (toOrdinal y m d : Int)).fdiv 30))⟩

/-! ### The weighted matching mode (spec §4.1-4.4)

The weighted symptom matcher described by the specification is not
present in `src/backend/main.py` (only the simple intersection mode
is); the spec attributes it to other versions of the routes, which are
not under `src/`.  The definitions of this section are therefore
modelled from the spec's own description. -/

/-- Modelled from the spec: a `SymptomRecord` of the symptom catalog
(spec §3); the catalog itself is absent from `src/`. -/
structure SymptomRec where
  term : String
  related_diseases : List String
deriving DecidableEq, Repr

/-- Modelled from the spec: the synonym normalizer (spec §4.1), absent
from `src/` — lower-case and trim, then exact lookup in the synonym
map, returning the input unchanged on a miss. -/
def normalize (syn : List (String × String)) (term : String) : String :=
  let t := pyLower (pyStrip term)
  match syn.lookup t with
  | some c => c
  | none => t

/-- Longest common prefix length of two character lists. -/
def commonPrefixLen : List Char → List Char → Nat
  | a :: as, b :: bs => if a == b then commonPrefixLen as bs + 1 else 0
  | _, _ => 0

/-- Modelled from the spec: the longest matching block of two character
lists (spec §4.2) — a triple `(i, j, k)` with maximal block length
`k = commonPrefixLen (a.drop i) (b.drop j)`, taking the earliest
`(i, j)` in lexicographic order among the maxima. -/
def bestBlock (a b : List Char) : Nat × Nat × Nat :=
  ((List.range (a.length + 1)).flatMap fun i =>
    (List.range (b.length + 1)).map fun j =>
      (i, j, commonPrefixLen (a.drop i) (b.drop j))).foldl
    (fun best c => if best.2.2 < c.2.2 then c else best) (0, 0, 0)

/-- Modelled from the spec: the total size of the matching blocks in
the recursive longest-block decomposition (spec §4.2).  Every
recursive call strictly shrinks the two pieces, so fuel
`a.length + b.length` is enough. -/
def matchingChars : Nat → List Char → List Char → Nat
  | 0, _, _ => 0
  | fuel + 1, a, b =>
      match bestBlock a b with
      | (i, j, k) =>
          if k == 0 then 0
          else
            k + matchingChars fuel (a.take i) (b.take j)
              + matchingChars fuel (a.drop (i + k)) (b.drop (j + k))

/-- Modelled from the spec: the test `similarity(a, b) > 0.7` of
§4.4 step 2, decided exactly: with `M` the matching-character count,
`2 * M / (la + lb) > 7/10` iff `7 * (la + lb) < 20 * M`; in the
both-empty edge case §4.2 defines `similarity = 1.0`, which exceeds
`0.7`. -/
def similarityGT07 (x y : String) : Bool :=
  let a := x.toList
  let b := y.toList
  a.length + b.length == 0
    || decide (7 * (a.length + b.length) < 20 * matchingChars (a.length + b.length) a b)

/-- Modelled from the spec: the red-flag keyword list of the weight
table (spec §4.3 gives these as its examples). -/
def redFlags : List String :=
  ["jaundice", "bloody", "rash", "convulsion", "chest pain"]

/-- Modelled from the spec: `weight(term)` (spec §4.3) — `2.0` when a
red-flag keyword is a substring of the normalized term, else `1.0`.
The weights, and hence all reachable scores, are integer-valued
floats, so they are modelled as integers. -/
def weight (term : String) : Int :=
  if redFlags.any (fun f => strIn f term) then 2 else 1

/-- Modelled from the spec: accumulate `w` onto the score of disease
`d` (spec §4.4 step 3) — diseases not yet seen start at 0 and are
appended in first-seen order, as in a Python dict. -/
def addScore : List (String × Int) → String → Int → List (String × Int)
  | [], d, w => [(d, w)]
  | (e, s) :: rest, d, w =>
      if e == d then (e, s + w) :: rest else (e, s) :: addScore rest d w

/-- Modelled from the spec: the hit test of §4.4 step 2 — the
normalized user symptom equals the record's lower-cased term, or their
similarity exceeds 0.7. -/
def isHit (u term : String) : Bool :=
  u == pyLower term || similarityGT07 u (pyLower term)

/-- Non-increasing order on scored diseases. -/
def wScoreGE (a b : String × Int) : Prop := b.2 ≤ a.2

instance : DecidableRel wScoreGE := fun _ _ => Int.decLe _ _

/-- Modelled from the spec: the weighted matcher `match` (spec §4.4),
absent from `src/`: normalize the user symptoms, add
`weight(user_symptom)` to every disease of a record's
`related_diseases` on each `(record, user symptom)` hit, sort
non-increasing by score (stable) and truncate to the top 10. -/
def weightedMatch (syn : List (String × String)) (userRaw : List String)
    (catalog : List SymptomRec) : List (String × Int) :=
  let us := userRaw.map (normalize syn)
  let scores := catalog.foldl
    (fun acc r =>
      us.foldl
        (fun acc2 u =>
          if isHit u r.term then
            r.related_diseases.foldl (fun acc3 d => addScore acc3 d (weight u)) acc2
          else acc2)
        acc)
    []
  (scores.insertionSort wScoreGE).take 10

/-- Modelled from the spec: `matchSymptoms` on a comma-separated query
(spec §6), feeding the split pieces to the weighted matcher. -/
def matchSymptomsWeighted (syn : List (String × String)) (csv : String)
    (catalog : List SymptomRec) : List (String × Int) :=
  weightedMatch syn (pySplit ',' csv) catalog

/-! ### Helper lemmas -/

/-- The empty character list is an infix of every list (Python
`"" in s`). -/
theorem infixAt_nil (l : List Char) : infixAt [] l = true := by
  cases l with
  | nil => rfl
  | cons c t => rfl

/-- Membership in the unsorted match list: exactly the catalog records
with positive intersection score, packaged by `mkEntry`. -/
theorem mem_rawMatches {user : List String} {data : List DiseaseRec}
    {e : MatchEntry} (h : e ∈ rawMatches user data) :
    ∃ r ∈ data, e = mkEntry user r ∧ 0 < interScore user (normSyms r) := by
  unfold rawMatches at h
  rw [List.mem_filterMap] at h
  obtain ⟨r, hr, hfr⟩ := h
  by_cases hs : 0 < interScore user (normSyms r)
  · rw [if_pos hs] at hfr
    exact ⟨r, hr, (Option.some.inj hfr).symm, hs⟩
  · rw [if_neg hs] at hfr
    exact absurd hfr (by simp)

/-- Stability of the descending sort: entries of any fixed score keep
their relative order, i.e. restricting the sorted list to one score
class gives back the input's score class unchanged. -/
theorem sortDesc_filter_score (M : List MatchEntry) (s : Nat) :
    (sortDesc M).filter (fun e => e.match_score == s)
      = M.filter (fun e => e.match_score == s) := by
  set p : MatchEntry → Bool := fun e => e.match_score == s with hp
  have hc : (M.filter p).Pairwise scoreGE := by
    apply List.pairwise_of_forall_mem_list
    intro a ha b hb
    have ha' := (List.mem_filter.mp ha).2
    have hb' := (List.mem_filter.mp hb).2
    simp only [hp, beq_iff_eq] at ha' hb'
    show b.match_score ≤ a.match_score
    omega
  have hsub : M.filter p <+ sortDesc M :=
    List.sublist_insertionSort hc (List.filter_sublist M)
  have hperm : (sortDesc M).filter p ~ M.filter p :=
    (List.perm_insertionSort scoreGE M).filter p
  have hfix : (M.filter p).filter p = M.filter p :=
    List.filter_eq_self.mpr fun a ha => (List.mem_filter.mp ha).2
  have hsub2 : M.filter p <+ (sortDesc M).filter p := by
    have := hsub.filter p
    rwa [hfix] at this
  exact (hsub2.eq_of_length hperm.length_eq.symm).symm

/-- The eight recognized age buckets of `get_due_vaccines`
(`main.py` 174-189): the substring the code tests for, with the
inclusive `[min_months, max_months]` window. -/
def buckets : List (String × Int × Int) :=
  [("birth", 0, 0), ("6 weeks", 1, 2), ("10 weeks", 2, 3), ("14 weeks", 3, 4),
   ("9-12 months", 9, 12), ("16-24 months", 16, 24), ("5-6 years", 60, 72),
   ("10 years", 120, 132)]

/-- An `if c then true else e` chain collapses to a disjunction. -/
theorem ite_true_or (c e : Bool) : (if c then true else e) = (c || e) := by
  cases c <;> simp

/-- The if/elif chain of `get_due_vaccines` holds iff some recognized
bucket substring occurs in the label with the age inside its window. -/
theorem duePred_iff (m : Int) (a : String) :
    duePred m a = true ↔
      ∃ b ∈ buckets, strIn b.1 a = true ∧ b.2.1 ≤ m ∧ m ≤ b.2.2 := by
  unfold duePred
  simp only [ite_true_or]
  simp only [Bool.or_eq_true, Bool.or_false, Bool.and_eq_true,
    decide_eq_true_eq, beq_iff_eq]
  simp only [buckets, List.mem_cons, List.not_mem_nil, or_false,
    exists_eq_or_imp, exists_eq_left]
  exact or_congr (and_congr_right fun _ => by omega) Iff.rfl

/-- The per-entry `upcoming_vaccine` test, unfolded. -/
theorem upcomingPred_iff (m : Int) (v : VaccineEntry) :
    upcomingPred m v = true ↔
      strIn "months" (pyLower v.age) = true ∧
        ∃ k, parseMin (pyLower v.age) = some k ∧ m < k := by
  unfold upcomingPred
  cases h : parseMin (pyLower v.age) <;> simp [h]

/-- The descending sort preserves length. -/
theorem sortDesc_length (l : List MatchEntry) : (sortDesc l).length = l.length :=
  (List.perm_insertionSort scoreGE l).length_eq

/-- Destructuring the happy path of `symptom_check`: when a match list
is returned, the data was nonempty and the list is the sorted,
truncated match list. -/
theorem symptom_check_ok_list
    (symptoms : String) (data : List DiseaseRec)
    (resp : SymptomResp) (l : List MatchEntry)
    (hok : symptom_check symptoms data = Except.ok resp)
    (hl : resp.possible_diseases = PossibleDiseases.list l) :
    resp.input_symptoms = userSymptoms symptoms ∧
    l = (sortDesc (rawMatches (userSymptoms symptoms) data)).take 5 := by
  unfold symptom_check at hok
  split at hok
  · exact absurd hok (by simp)
  · simp only [Except.ok.injEq] at hok
    subst hok
    simp only at hl
    split at hl
    · exact absurd hl (by simp)
    · simp only [PossibleDiseases.list.injEq] at hl
      exact ⟨rfl, hl.symm⟩

/-! ### Claim C1 -/

/-- C1.  For every comma-separated user symptom list and every
disease catalog, whenever the simple-mode symptom matcher returns a
match list, (a) the echoed input symptoms are the trimmed lower-cased
pieces of the query, (b) every returned entry is built by `mkEntry`
from a catalog record — so its score is exactly the size of the set
intersection of the trimmed lower-cased user symptoms with the
disease's trimmed lower-cased symptom list, (c) the list is sorted
non-increasing by score, (d) within each score class the original
catalog order is preserved (stable tie-break), and (e) the result is
truncated to at most 5 entries — exactly 5 when more matched, all of
them otherwise. -/
theorem simple_matcher_sorted_stable_capped
    (symptoms : String) (data : List DiseaseRec)
    (resp : SymptomResp) (l : List MatchEntry)
    (hok : symptom_check symptoms data = Except.ok resp)
    (hl : resp.possible_diseases = PossibleDiseases.list l) :
    resp.input_symptoms = userSymptoms symptoms ∧
    (∀ e ∈ l, e ∈ rawMatches (userSymptoms symptoms) data ∧
      ∃ r ∈ data, e = mkEntry (userSymptoms symptoms) r) ∧
    l.Pairwise (fun a b => b.match_score ≤ a.match_score) ∧
    (∀ s : Nat, l.filter (fun e => e.match_score == s)
        <+ (rawMatches (userSymptoms symptoms) data).filter
             (fun e => e.match_score == s)) ∧
    l.length = min 5 (rawMatches (userSymptoms symptoms) data).length ∧
    ((rawMatches (userSymptoms symptoms) data).length ≤ 5 →
      ∀ e ∈ rawMatches (userSymptoms symptoms) data, e ∈ l) := by
  obtain ⟨hin, hltake⟩ := symptom_check_ok_list symptoms data resp l hok hl
  subst hltake
  set user := userSymptoms symptoms with huser
  set M := rawMatches user data with hM
  set S := sortDesc M with hS
  refine ⟨hin, ?_, ?_, ?_, ?_, ?_⟩
  · intro e he
    have heS : e ∈ S := List.mem_of_mem_take he
    have heM : e ∈ M := by
      rw [hS] at heS
      exact (List.mem_insertionSort scoreGE).mp heS
    obtain ⟨r, hr, hre, -⟩ := mem_rawMatches (hM ▸ heM)
    exact ⟨heM, r, hr, hre⟩
  · have hsorted : S.Pairwise scoreGE := List.sorted_insertionSort scoreGE M
    exact hsorted.sublist (List.take_sublist 5 S)
  · intro s
    have h1 : (S.take 5).filter (fun e => e.match_score == s)
        <+ S.filter (fun e => e.match_score == s) :=
      (List.take_sublist 5 S).filter _
    rwa [hS, sortDesc_filter_score M s] at h1
  · rw [List.length_take, hS, sortDesc_length]
  · intro hle e he
    have : S.take 5 = S := by
      apply List.take_of_length_le
      rw [hS, sortDesc_length]
      exact hle
    rw [this, hS]
    exact (List.mem_insertionSort scoreGE).mpr he

/-- Witness for C1 at a concrete input: query `"fever,cough"` against a
three-disease catalog, where `Flu` scores 2, `Cold` scores 1 and
`Malaria` scores 0. -/
theorem simple_matcher_sorted_stable_capped_witness :
    symptom_check "fever,cough"
        [⟨"Flu", ["fever", "cough"]⟩, ⟨"Cold", ["cough"]⟩,
         ⟨"Malaria", ["chills"]⟩]
      = Except.ok ⟨["fever", "cough"],
          PossibleDiseases.list
            [⟨"Flu", 2, ["fever", "cough"]⟩, ⟨"Cold", 1, ["cough"]⟩]⟩ ∧
    ([⟨"Flu", 2, ["fever", "cough"]⟩, ⟨"Cold", 1, ["cough"]⟩] :
        List MatchEntry).Pairwise
      (fun a b => b.match_score ≤ a.match_score) ∧
    ([⟨"Flu", 2, ["fever", "cough"]⟩, ⟨"Cold", 1, ["cough"]⟩] :
        List MatchEntry).length
      = min 5 (rawMatches (userSymptoms "fever,cough")
          [⟨"Flu", ["fever", "cough"]⟩, ⟨"Cold", ["cough"]⟩,
           ⟨"Malaria", ["chills"]⟩]).length := by
  have h := simple_matcher_sorted_stable_capped "fever,cough"
    [⟨"Flu", ["fever", "cough"]⟩, ⟨"Cold", ["cough"]⟩, ⟨"Malaria", ["chills"]⟩]
    ⟨["fever", "cough"],
      PossibleDiseases.list
        [⟨"Flu", 2, ["fever", "cough"]⟩, ⟨"Cold", 1, ["cough"]⟩]⟩
    [⟨"Flu", 2, ["fever", "cough"]⟩, ⟨"Cold", 1, ["cough"]⟩]
    (by decide) rfl
  exact ⟨by decide, h.2.2.1, h.2.2.2.2.1⟩

/-! ### Claim C10 -/

/-- C10.  Every disease in the simple-mode matcher's output has a
strictly positive match score (`score ≥ 1`), and a catalog record whose
symptom list has empty intersection with the user's symptoms never
contributes an entry to the result, even when fewer than 5 entries are
returned. -/
theorem simple_matcher_scores_positive
    (symptoms : String) (data : List DiseaseRec)
    (resp : SymptomResp) (l : List MatchEntry)
    (hok : symptom_check symptoms data = Except.ok resp)
    (hl : resp.possible_diseases = PossibleDiseases.list l) :
    (∀ e ∈ l, 1 ≤ e.match_score) ∧
    ∀ r ∈ data, interScore (userSymptoms symptoms) (normSyms r) = 0 →
      mkEntry (userSymptoms symptoms) r ∉ l := by
  obtain ⟨-, hltake⟩ := symptom_check_ok_list symptoms data resp l hok hl
  subst hltake
  have hmem : ∀ e ∈ (sortDesc (rawMatches (userSymptoms symptoms) data)).take 5,
      ∃ r ∈ data, e = mkEntry (userSymptoms symptoms) r ∧
        0 < interScore (userSymptoms symptoms) (normSyms r) := by
    intro e he
    have heM : e ∈ rawMatches (userSymptoms symptoms) data :=
      (List.mem_insertionSort scoreGE).mp (List.mem_of_mem_take he)
    exact mem_rawMatches heM
  constructor
  · intro e he
    obtain ⟨r, -, hre, hpos⟩ := hmem e he
    have : e.match_score = interScore (userSymptoms symptoms) (normSyms r) := by
      rw [hre]; rfl
    omega
  · intro r hr hzero hmemr
    obtain ⟨r', -, hre, hpos⟩ := hmem _ hmemr
    have : interScore (userSymptoms symptoms) (normSyms r)
        = interScore (userSymptoms symptoms) (normSyms r') :=
      congrArg MatchEntry.match_score hre
    omega

/-- Witness for C10 at the concrete input of the C1 witness: both
returned entries have positive scores, and `Malaria` (score 0) is
absent. -/
theorem simple_matcher_scores_positive_witness :
    (∀ e ∈ ([⟨"Flu", 2, ["fever", "cough"]⟩, ⟨"Cold", 1, ["cough"]⟩] :
        List MatchEntry), 1 ≤ e.match_score) ∧
    mkEntry (userSymptoms "fever,cough") ⟨"Malaria", ["chills"]⟩
      ∉ ([⟨"Flu", 2, ["fever", "cough"]⟩, ⟨"Cold", 1, ["cough"]⟩] :
          List MatchEntry) := by
  have h := simple_matcher_scores_positive "fever,cough"
    [⟨"Flu", ["fever", "cough"]⟩, ⟨"Cold", ["cough"]⟩, ⟨"Malaria", ["chills"]⟩]
    ⟨["fever", "cough"],
      PossibleDiseases.list
        [⟨"Flu", 2, ["fever", "cough"]⟩, ⟨"Cold", 1, ["cough"]⟩]⟩
    [⟨"Flu", 2, ["fever", "cough"]⟩, ⟨"Cold", 1, ["cough"]⟩]
    (by decide) rfl
  exact ⟨h.1, h.2 ⟨"Malaria", ["chills"]⟩ (by simp) (by decide)⟩

/-! ### Claim C7 -/

/-- C7, counterexample.  The claim says an empty user symptom list
yields an empty result list with no substitution.  On the empty query
against a nonempty catalog the endpoint instead returns the
`unknown_query` sentinel string in the `possible_diseases` field —
`matches[:5] or t("unknown_query", lang)` replaces the empty list — so
the response differs from the one carrying the empty list. -/
theorem empty_symptoms_sentinel_counterexample :
    symptom_check "" [⟨"Dengue", ["fever"]⟩]
      = Except.ok ⟨[""], PossibleDiseases.sentinel "unknown_query"⟩ ∧
    (Except.ok ⟨[""], PossibleDiseases.sentinel "unknown_query"⟩ :
        Except String SymptomResp)
      ≠ Except.ok ⟨[""], PossibleDiseases.list []⟩ := by
  decide

/-- C7, amended.  The internal match loop yields no matches for an
empty user symptom list; the endpoint itself never sees an empty list —
`"".split(",") = [""]` — and when no disease matches it raises no error
but substitutes the `unknown_query` sentinel string for the empty match
list. -/
theorem empty_symptoms_amended
    (data : List DiseaseRec) (hne : data ≠ [])
    (hzero : ∀ r ∈ data, interScore [""] (normSyms r) = 0) :
    (∀ d : List DiseaseRec, rawMatches [] d = []) ∧
    userSymptoms "" = [""] ∧
    symptom_check "" data
      = Except.ok ⟨[""], PossibleDiseases.sentinel "unknown_query"⟩ := by
  refine ⟨?_, rfl, ?_⟩
  · intro d
    unfold rawMatches
    rw [List.filterMap_eq_nil_iff]
    intro r hr
    have h0 : interScore [] (normSyms r) = 0 := rfl
    simp [h0]
  · have huser : userSymptoms "" = [""] := rfl
    have hM : rawMatches (userSymptoms "") data = [] := by
      unfold rawMatches
      rw [List.filterMap_eq_nil_iff]
      intro r hr
      rw [huser, if_neg]
      rw [hzero r hr]
      omega
    unfold symptom_check
    rw [if_neg (by simp [hne])]
    rw [hM]
    rfl

/-- Witness for C7 at a concrete nonempty catalog. -/
theorem empty_symptoms_amended_witness :
    ([⟨"Dengue", ["fever"]⟩] : List DiseaseRec) ≠ [] ∧
    rawMatches [] [⟨"Dengue", ["fever"]⟩] = [] ∧
    symptom_check "" [⟨"Dengue", ["fever"]⟩]
      = Except.ok ⟨[""], PossibleDiseases.sentinel "unknown_query"⟩ := by
  have h := empty_symptoms_amended [⟨"Dengue", ["fever"]⟩]
    (by decide) (by decide)
  exact ⟨by decide, h.1 _, h.2.2⟩

/-! ### Claim C6 -/

/-- C6, counterexample.  The claim says the disease lookup fails
with an `EmptyQuery` error exactly on the empty query.  The code has no
such check: on the empty query every catalog name contains the empty
substring, so the lookup returns the whole catalog as a successful
result rather than failing. -/
theorem empty_disease_query_counterexample :
    get_disease_info "" [⟨"Dengue", ["fever"]⟩]
      = some (DiseaseResp.found [⟨"Dengue", ["fever"]⟩]) ∧
    some (DiseaseResp.found [⟨"Dengue", ["fever"]⟩]) ≠ some DiseaseResp.noData := by
  decide

/-- C6, amended.  The disease lookup never fails on an empty query:
the empty string is a substring of every name, so a nonempty catalog is
returned whole.  The second half of the claim stands: the lookup never
indexes into an empty query string (the `query[0]` suggestion path is
reached only when no record matched, which cannot happen for an empty
query against a nonempty catalog) — modelled by the result never being
`none`. -/
theorem empty_disease_query_amended
    (data : List DiseaseRec) (hne : data ≠ []) :
    (∀ (nm : String) (d : List DiseaseRec),
      (get_disease_info nm d).isSome = true) ∧
    get_disease_info "" data = some (DiseaseResp.found data) := by
  constructor
  · intro nm d
    unfold get_disease_info
    split
    · rfl
    · next hd =>
        by_cases hh : ((d.filter fun r =>
            strIn (pyStrip (pyLower nm)) (pyStrip (pyLower r.disease))).isEmpty)
          = false
        · simp only [hh]
          rfl
        · simp only [Bool.not_eq_false] at hh
          simp only [hh, Bool.not_true]
          have hq : (pyStrip (pyLower nm)).toList ≠ [] := by
            intro hq0
            have hall : ∀ r ∈ d,
                (strIn (pyStrip (pyLower nm)) (pyStrip (pyLower r.disease)))
                  = true := by
              intro r _
              unfold strIn
              rw [hq0]
              exact infixAt_nil _
            have : (d.filter fun r =>
                strIn (pyStrip (pyLower nm)) (pyStrip (pyLower r.disease))) = d :=
              List.filter_eq_self.mpr hall
            rw [this] at hh
            rw [List.isEmpty_iff] at hh
            exact hd (by simp [hh])
          cases hc : (pyStrip (pyLower nm)).toList with
          | nil => exact absurd hc hq
          | cons c cs => simp
  · have hq : (pyStrip (pyLower "")) = "" := rfl
    unfold get_disease_info
    rw [if_neg (by simp [hne])]
    rw [hq]
    have hall : ∀ r ∈ data,
        (strIn "" (pyStrip (pyLower r.disease))) = true :=
      fun r _ => strIn_empty _
    rw [List.filter_eq_self.mpr hall]
    rw [if_pos (by simp [hne])]

/-- Witness for C6 at a concrete nonempty catalog. -/
theorem empty_disease_query_amended_witness :
    ([⟨"Dengue", ["fever"]⟩] : List DiseaseRec) ≠ [] ∧
    (get_disease_info "malaria" [⟨"Dengue", ["fever"]⟩]).isSome = true ∧
    get_disease_info "" [⟨"Dengue", ["fever"]⟩]
      = some (DiseaseResp.found [⟨"Dengue", ["fever"]⟩]) := by
  have h := empty_disease_query_amended [⟨"Dengue", ["fever"]⟩] (by decide)
  exact ⟨by decide, h.1 "malaria" _, h.2⟩

/-! ### Claims about the vaccination scheduler -/

/-- Destructuring the happy path of `get_due_vaccines`: on a parseable
date of birth the response carries the floor-divided age, the filtered
due list and the first-match upcoming entry. -/
theorem get_due_vaccines_ok (dob : String) (todayOrd : Int)
    (nis opt : List VaccineEntry) (y m d : Nat)
    (hparse : parseDate dob = some (y, m, d)) :
    get_due_vaccines true dob todayOrd nis opt
      = Except.ok ⟨fmtDate y m d,
          (todayOrd - (toOrdinal y m d : Int)).fdiv 30,
          (nis ++ opt).filter
            (fun v => duePred ((todayOrd - (toOrdinal y m d : Int)).fdiv 30)
              (pyLower v.age)),
          (nis ++ opt).find?
            (upcomingPred ((todayOrd - (toOrdinal y m d : Int)).fdiv 30))⟩ := by
  unfold get_due_vaccines
  rw [hparse]
  rfl

/-- C2.  For every parseable date of birth, with
`age_months = floor(age_days / 30)`, a schedule entry is in
`due_vaccines` iff one of the eight recognized bucket substrings occurs
in its lower-cased label and `age_months` lies in that bucket's
inclusive window; entries whose labels contain none of the recognized
substrings are never due. -/
theorem due_vaccines_window_iff
    (dob : String) (todayOrd : Int) (nis opt : List VaccineEntry)
    (y m d : Nat) (hparse : parseDate dob = some (y, m, d))
    (r : DueResp)
    (hok : get_due_vaccines true dob todayOrd nis opt = Except.ok r) :
    r.age_months = (todayOrd - (toOrdinal y m d : Int)).fdiv 30 ∧
    ∀ v ∈ nis ++ opt,
      (v ∈ r.due_vaccines ↔
        ∃ b ∈ buckets, strIn b.1 (pyLower v.age) = true ∧
          b.2.1 ≤ r.age_months ∧ r.age_months ≤ b.2.2) ∧
      ((∀ b ∈ buckets, strIn b.1 (pyLower v.age) = false) →
        v ∉ r.due_vaccines) := by
  rw [get_due_vaccines_ok dob todayOrd nis opt y m d hparse] at hok
  have hr := (Except.ok.inj hok).symm
  subst hr
  refine ⟨rfl, fun v hv => ⟨?_, ?_⟩⟩
  · constructor
    · intro hmem
      exact (duePred_iff _ _).mp (List.mem_filter.mp hmem).2
    · intro hex
      exact List.mem_filter.mpr ⟨hv, (duePred_iff _ _).mpr hex⟩
  · intro hall hmem
    obtain ⟨b, hb, hbin, -⟩ :=
      (duePred_iff _ _).mp (List.mem_filter.mp hmem).2
    rw [hall b hb] at hbin
    cases hbin

/-- Witness for C2: date of birth 2024-01-01, 45 days later
(age 1 month), against an NIS entry labelled `"6 Weeks"`, which is due
through the `6 weeks → [1, 2]` bucket. -/
theorem due_vaccines_window_iff_witness :
    parseDate "2024-01-01" = some (2024, 1, 1) ∧
    (⟨"OPV", "6 Weeks"⟩ : VaccineEntry)
      ∈ (DueResp.mk "2024-01-01" 1 [⟨"OPV", "6 Weeks"⟩] none).due_vaccines ∧
    (∃ b ∈ buckets, strIn b.1 (pyLower "6 Weeks") = true ∧
      b.2.1 ≤ (DueResp.mk "2024-01-01" 1 [⟨"OPV", "6 Weeks"⟩] none).age_months ∧
      (DueResp.mk "2024-01-01" 1 [⟨"OPV", "6 Weeks"⟩] none).age_months ≤ b.2.2) := by
  have h := due_vaccines_window_iff "2024-01-01" (toOrdinal 2024 2 15 : Int)
    [⟨"OPV", "6 Weeks"⟩] [] 2024 1 1 (by decide)
    ⟨"2024-01-01", 1, [⟨"OPV", "6 Weeks"⟩], none⟩ (by decide)
  have hm := (h.2 ⟨"OPV", "6 Weeks"⟩ (by simp)).1.mp (by decide)
  exact ⟨by decide, by decide, hm⟩

/-- C3.  For every parseable date of birth, `upcoming_vaccine` is
the first entry in catalog order (NIS entries before optional-private
entries) whose lower-cased label contains `"months"` and whose parsed
lower bound — the integer before the first `"-"`, with `"months"`
stripped — strictly exceeds `age_months`; entries whose lower bound
fails to parse are skipped silently, every earlier entry fails the
test, and at most one entry is returned (`none` exactly when no entry
qualifies). -/
theorem upcoming_vaccine_first_match
    (dob : String) (todayOrd : Int) (nis opt : List VaccineEntry)
    (y m d : Nat) (hparse : parseDate dob = some (y, m, d))
    (r : DueResp)
    (hok : get_due_vaccines true dob todayOrd nis opt = Except.ok r) :
    (∀ v, r.upcoming_vaccine = some v →
      v ∈ nis ++ opt ∧
      strIn "months" (pyLower v.age) = true ∧
      (∃ k, parseMin (pyLower v.age) = some k ∧ r.age_months < k) ∧
      ∃ pre post, nis ++ opt = pre ++ v :: post ∧
        ∀ u ∈ pre, ¬(strIn "months" (pyLower u.age) = true ∧
          ∃ k, parseMin (pyLower u.age) = some k ∧ r.age_months < k)) ∧
    (r.upcoming_vaccine = none ↔
      ∀ v ∈ nis ++ opt, ¬(strIn "months" (pyLower v.age) = true ∧
        ∃ k, parseMin (pyLower v.age) = some k ∧ r.age_months < k)) := by
  rw [get_due_vaccines_ok dob todayOrd nis opt y m d hparse] at hok
  have hr := (Except.ok.inj hok).symm
  subst hr
  constructor
  · intro v hfind
    simp only at hfind
    obtain ⟨hp, pre, post, hsplit, hpre⟩ := List.find?_eq_some.mp hfind
    obtain ⟨h1, h2⟩ := (upcomingPred_iff _ _).mp hp
    refine ⟨List.mem_of_find?_eq_some hfind, h1, h2, pre, post, hsplit, ?_⟩
    intro u hu hcontra
    have := hpre u hu
    rw [(upcomingPred_iff _ _).mpr hcontra] at this
    cases this
  · simp only
    rw [List.find?_eq_none]
    constructor
    · intro hall v hv hcontra
      exact hall v hv ((upcomingPred_iff _ _).mpr hcontra)
    · intro hall v hv hp
      exact hall v hv ((upcomingPred_iff _ _).mp hp)

/-- Witness for C3: the spec's own example — born 2024-01-01, queried
on 2024-07-01 (age 6 months), catalog `[MMR "9-12 months"]`: the MMR
entry is upcoming with parsed lower bound 9 > 6. -/
theorem upcoming_vaccine_first_match_witness :
    parseDate "2024-01-01" = some (2024, 1, 1) ∧
    (⟨"MMR", "9-12 months"⟩ : VaccineEntry) ∈
      ([⟨"MMR", "9-12 months"⟩] ++ [] : List VaccineEntry) ∧
    strIn "months" (pyLower "9-12 months") = true ∧
    (∃ k, parseMin (pyLower "9-12 months") = some k ∧
      (DueResp.mk "2024-01-01" 6 [] (some ⟨"MMR", "9-12 months"⟩)).age_months < k) := by
  have h := upcoming_vaccine_first_match "2024-01-01" (toOrdinal 2024 7 1 : Int)
    [⟨"MMR", "9-12 months"⟩] [] 2024 1 1 (by decide)
    ⟨"2024-01-01", 6, [], some ⟨"MMR", "9-12 months"⟩⟩ (by decide)
  obtain ⟨hmem, h1, h2, -⟩ := h.1 ⟨"MMR", "9-12 months"⟩ rfl
  exact ⟨by decide, hmem, h1, h2⟩

/-- C9.  The due list is a subsequence of the schedule catalog
traversed in order (all NIS entries, then all optional-private
entries): catalog order is preserved and no entry occurs more often
than in the catalog. -/
theorem due_vaccines_sublist
    (dob : String) (todayOrd : Int) (nis opt : List VaccineEntry)
    (r : DueResp)
    (hok : get_due_vaccines true dob todayOrd nis opt = Except.ok r) :
    r.due_vaccines <+ nis ++ opt ∧
    ∀ v : VaccineEntry,
      r.due_vaccines.count v ≤ (nis ++ opt).count v := by
  cases hparse : parseDate dob with
  | none =>
      unfold get_due_vaccines at hok
      rw [hparse] at hok
      simp at hok
  | some ymd =>
      obtain ⟨y, m, d⟩ := ymd
      rw [get_due_vaccines_ok dob todayOrd nis opt y m d hparse] at hok
      have hr := (Except.ok.inj hok).symm
      subst hr
      exact ⟨List.filter_sublist _, fun v => (List.filter_sublist _).count_le v⟩

/-- Witness for C9 at the C2 witness input. -/
theorem due_vaccines_sublist_witness :
    (DueResp.mk "2024-01-01" 1 [⟨"OPV", "6 Weeks"⟩] none).due_vaccines
      <+ ([⟨"OPV", "6 Weeks"⟩] ++ [] : List VaccineEntry) ∧
    (DueResp.mk "2024-01-01" 1 [⟨"OPV", "6 Weeks"⟩] none).due_vaccines.count
        ⟨"OPV", "6 Weeks"⟩
      ≤ ([⟨"OPV", "6 Weeks"⟩] ++ [] : List VaccineEntry).count ⟨"OPV", "6 Weeks"⟩ := by
  have h := due_vaccines_sublist "2024-01-01" (toOrdinal 2024 2 15 : Int)
    [⟨"OPV", "6 Weeks"⟩] []
    ⟨"2024-01-01", 1, [⟨"OPV", "6 Weeks"⟩], none⟩ (by decide)
  exact ⟨h.1, h.2 ⟨"OPV", "6 Weeks"⟩⟩

/-- C5, counterexample.  The claim says a date of birth in the
future yields the invalid-date error.  It does not: `"2025-06-01"`
parses, and with "today" at ordinal `toOrdinal 2024 1 1` — more than a
year earlier — the endpoint still answers `Except.ok`, with the
negative age `(-18)` months, not an error. -/
theorem future_dob_no_error_counterexample :
    parseDate "2025-06-01" = some (2025, 6, 1) ∧
    (toOrdinal 2024 1 1 : Int) < (toOrdinal 2025 6 1 : Int) ∧
    get_due_vaccines true "2025-06-01" (toOrdinal 2024 1 1 : Int) [] []
      = Except.ok ⟨"2025-06-01", -18, [], none⟩ := by
  decide

/-- C5, amended.  `get_due_vaccines` returns the invalid-date error
exactly when the date-of-birth string fails `strptime("%Y-%m-%d")`
parsing; every parseable date of birth — future ones included —
produces a complete `Except.ok` result, never a partial one. -/
theorem invalid_date_error_iff
    (dob : String) (todayOrd : Int) (nis opt : List VaccineEntry) :
    (get_due_vaccines true dob todayOrd nis opt
        = Except.error "Invalid date format. Use YYYY-MM-DD"
      ↔ parseDate dob = none) ∧
    ((parseDate dob).isSome = true
      ↔ ∃ r, get_due_vaccines true dob todayOrd nis opt = Except.ok r) := by
  cases hp : parseDate dob with
  | none =>
      unfold get_due_vaccines
      rw [hp]
      constructor
      · simp
      · simp
  | some ymd =>
      obtain ⟨y, m, d⟩ := ymd
      rw [get_due_vaccines_ok dob todayOrd nis opt y m d hp]
      constructor
      · simp
      · exact ⟨fun _ => ⟨_, rfl⟩, fun _ => rfl⟩

/-! ### Claim C4 -/

/-- C4, counterexample.  The claim's motivating example fails on
the code: neither `"9 months"` nor `"9-12 months"` contains the other
as a substring, so the query `"9 months"` against a catalog whose only
entry is labelled `"9-12 months"` returns the no-vaccines error — not
that entry. -/
theorem vaccines_by_age_example_counterexample :
    strIn "9 months" "9-12 months" = false ∧
    strIn "9-12 months" "9 months" = false ∧
    get_vaccines_by_age true "9 months" [⟨"MMR", "9-12 months"⟩] []
      = Except.error "No vaccines found for age" := by
  decide

/-- C4, amended.  `get_vaccines_by_age` matches a free-text age
query against each entry by case-insensitive bidirectional substring
containment — the stripped lower-cased query contained in the
lower-cased raw label or vice versa; in particular the query
`"9 months"` does NOT match an entry labelled `"9-12 months"` (neither
string contains the other), so that entry is not returned. -/
theorem vaccines_by_age_bidirectional
    (age : String) (nis opt : List VaccineEntry)
    (out : String × List VaccineEntry)
    (hok : get_vaccines_by_age true age nis opt = Except.ok out) :
    out.1 = age ∧
    (∀ v, v ∈ out.2 ↔ v ∈ nis ++ opt ∧
      (strIn (pyStrip (pyLower age)) (pyLower v.age) = true ∨
       strIn (pyLower v.age) (pyStrip (pyLower age)) = true)) ∧
    strIn "9 months" "9-12 months" = false ∧
    strIn "9-12 months" "9 months" = false := by
  unfold get_vaccines_by_age at hok
  split at hok
  · exact absurd hok (by simp)
  · split at hok
    · have hout := (Except.ok.inj hok).symm
      subst hout
      refine ⟨rfl, ?_, by decide, by decide⟩
      intro v
      rw [List.mem_filter]
      constructor
      · rintro ⟨hv, hp⟩
        exact ⟨hv, by simpa using hp⟩
      · rintro ⟨hv, hp⟩
        exact ⟨hv, by simpa using hp⟩
    · exact absurd hok (by simp)

/-- Witness for C4 at a matching query: `"10 years"` is a substring of
the label `"10 years"`, so the entry is returned. -/
theorem vaccines_by_age_bidirectional_witness :
    ("10 years", [(⟨"Typhoid", "10 years"⟩ : VaccineEntry)]).1 = "10 years" ∧
    ((⟨"Typhoid", "10 years"⟩ : VaccineEntry)
      ∈ ("10 years", [(⟨"Typhoid", "10 years"⟩ : VaccineEntry)]).2
      ↔ (⟨"Typhoid", "10 years"⟩ : VaccineEntry)
          ∈ ([⟨"Typhoid", "10 years"⟩] ++ [] : List VaccineEntry) ∧
        (strIn (pyStrip (pyLower "10 years")) (pyLower "10 years") = true ∨
         strIn (pyLower "10 years") (pyStrip (pyLower "10 years")) = true)) := by
  have h := vaccines_by_age_bidirectional "10 years" [⟨"Typhoid", "10 years"⟩] []
    ("10 years", [⟨"Typhoid", "10 years"⟩]) (by decide)
  exact ⟨h.1, h.2.1 ⟨"Typhoid", "10 years"⟩⟩

/-! ### Claim C8 -/

set_option maxRecDepth 8000 in
/-- C8.  In the weighted matching mode (modelled from the spec, as
the weighted matcher is not in `src/`), each hit adds
`weight(user_symptom)` — 2 for a red-flag term like `"rash"`, 1
otherwise — to every disease of the record's `related_diseases`: on the
catalog `[{fever → [Dengue, Malaria]}, {rash → [Dengue]}]`, the query
`"fever,rash"` yields `Dengue` with score 3 and `Malaria` with score 1,
in that order. -/
theorem weighted_match_example :
    weight "rash" = 2 ∧ weight "fever" = 1 ∧
    matchSymptomsWeighted [] "fever,rash"
        [⟨"fever", ["Dengue", "Malaria"]⟩, ⟨"rash", ["Dengue"]⟩]
      = [("Dengue", 3), ("Malaria", 1)] := by
  decide

end Sehat
